import Mathlib

/-!
# MovieMate backend — shallow embedding and verification

This file embeds the core logic of `backend/main.py` of the MovieMate
repository in Lean 4 and proves the specification claims about it:

* the watch-party room lifecycle (`PartyService.create_party_room`,
  `join_party_room`, `leave_party_room`, `end_party_room`,
  `get_party_room`, `sync_playback`);
* the recommendation engine (`RecommendationEngine.get_recommendations`,
  `_get_genre_based_recommendations`, `_get_additional_recommendations`)
  with the TMDB discovery collaborator modelled as an oracle;
* the movie-update endpoints (`update_movie`, `update_rating_review`,
  `generate_ai21_review`).

The relational store is modelled as a list of rows; a committed ORM row
mutation is modelled as replacing the fetched row in the list.  Python
floats that carry ratings are modelled as rationals (all values involved
are exactly representable), Python `Optional` fields as `Option`, and the
JSON round-trip of the `members` column (`json.dumps`/`json.loads`) as the
identity on a structured member list.  External collaborators (HTTP calls,
the AI review generator) are oracle parameters; a call that may raise is an
`Except` value.
-/

namespace MovieMate

/-- One entry of a party room's `members` JSON list:
`{"id": ..., "name": ..., "is_host": ..., "joined_at": ...}`. -/
structure Member where
  id : String
  name : String
  is_host : Bool
  joined_at : String
  deriving Repr, DecidableEq

/-- The `PartyRoom` ORM row (table `party_rooms`).  The `members` column is
stored as a JSON string in the database; since every write of that column is
`json.dumps` of a member list and every read is `json.loads`, it is modelled
directly as the decoded list. -/
structure PartyRoomRow where
  code : String
  movie_id : Int
  movie_title : String
  movie_poster : Option String
  host_id : String
  is_active : Bool
  created_at : String
  members : List Member
  deriving Repr, DecidableEq

/-- The error taxonomy surfaced by the handlers: `notFound` is HTTP 404,
`alreadyMember` the HTTP 400 "User already in party room",
`validationError` the HTTP 400 "Rating must be between 0 and 10", and
`serverError` an HTTP 500 (storage failure / unexpected exception). -/
inductive ApiError where
  | notFound
  | alreadyMember
  | validationError
  | serverError
  deriving Repr, DecidableEq

/-- The party-room store: the `party_rooms` table.  The table carries a
UNIQUE constraint on `code`. -/
abbrev PartyDB := List PartyRoomRow

/-- `db.query(PartyRoom).filter(PartyRoom.code == code, PartyRoom.is_active == True).first()`. -/
def findActiveRoom (db : PartyDB) (code : String) : Option PartyRoomRow :=
  db.find? (fun r => r.code == code && r.is_active)

/-- `db.query(PartyRoom).filter(PartyRoom.code == code).first()` (no
`is_active` filter; used by `end_party_room`). -/
def findRoom (db : PartyDB) (code : String) : Option PartyRoomRow :=
  db.find? (fun r => r.code == code)

/-- Committing a mutation of the ORM row fetched for `code`: the row with
that code is replaced by the mutated row.  Codes are unique in the table, so
exactly the fetched row is affected. -/
def commitRoom (db : PartyDB) (code : String) (room : PartyRoomRow) : PartyDB :=
  db.map (fun r => if r.code == code then room else r)

/-- The data of `PartyRoomCreate` (pydantic model). -/
structure PartyRoomCreate where
  movie_id : Int
  movie_title : String
  movie_poster : Option String
  host_id : String
  deriving Repr, DecidableEq

/-- `PartyService.create_party_room`.  The randomly generated 6-character
room code and the current time are passed in as parameters.  The table's
UNIQUE constraint on `code` makes the insert of a colliding code raise at
commit; the handler's generic `except` turns that into an HTTP 500
(`serverError`) after rollback. -/
def create_party_room (db : PartyDB) (party_data : PartyRoomCreate)
    (code : String) (now : String) : PartyDB × Except ApiError PartyRoomRow :=
  if db.any (fun r => r.code == code) then
    (db, .error .serverError)
  else
    let host_member : Member :=
      { id := party_data.host_id, name := "Host", is_host := true, joined_at := now }
    let room : PartyRoomRow :=
      { code := code
        movie_id := party_data.movie_id
        movie_title := party_data.movie_title
        movie_poster := party_data.movie_poster
        host_id := party_data.host_id
        is_active := true
        created_at := now
        members := [host_member] }
    (db ++ [room], .ok room)

/-- The data of `PartyJoinRequest`. -/
structure PartyJoinRequest where
  room_code : String
  user_id : String
  user_name : String
  deriving Repr, DecidableEq

/-- `PartyService.join_party_room`.  `now` is the join timestamp
(`datetime.utcnow().isoformat()`). -/
def join_party_room (db : PartyDB) (join_data : PartyJoinRequest)
    (now : String) : PartyDB × Except ApiError PartyRoomRow :=
  match findActiveRoom db join_data.room_code with
  | none => (db, .error .notFound)
  | some party_room =>
    if party_room.members.any (fun member => member.id == join_data.user_id) then
      (db, .error .alreadyMember)
    else
      let new_member : Member :=
        { id := join_data.user_id, name := join_data.user_name,
          is_host := false, joined_at := now }
      let room' := { party_room with members := party_room.members ++ [new_member] }
      (commitRoom db party_room.code room', .ok room')

/-- `PartyService.leave_party_room`.  The departing user's entries are
filtered out locally; when the departing user is the host only the
`is_active` flag is persisted (the filtered list is discarded), otherwise
the filtered list is persisted and the flag untouched. -/
def leave_party_room (db : PartyDB) (room_code : String) (user_id : String) :
    PartyDB × Except ApiError PartyRoomRow :=
  match findActiveRoom db room_code with
  | none => (db, .error .notFound)
  | some party_room =>
    let members := party_room.members.filter (fun member => !(member.id == user_id))
    if members.length < party_room.members.length then
      if user_id == party_room.host_id then
        let room' := { party_room with is_active := false }
        (commitRoom db party_room.code room', .ok room')
      else
        let room' := { party_room with members := members }
        (commitRoom db party_room.code room', .ok room')
    else
      (db, .error .notFound)

/-- `PartyService.end_party_room` (returns only a message on success). -/
def end_party_room (db : PartyDB) (room_code : String) :
    PartyDB × Except ApiError Unit :=
  match findRoom db room_code with
  | none => (db, .error .notFound)
  | some party_room =>
    (commitRoom db party_room.code { party_room with is_active := false }, .ok ())

/-- `PartyService.get_party_room` (read-only). -/
def get_party_room (db : PartyDB) (room_code : String) :
    Except ApiError PartyRoomRow :=
  match findActiveRoom db room_code with
  | none => .error .notFound
  | some party_room => .ok party_room

/-- `PartyService.sync_playback` (read-only; logs and acknowledges). -/
def sync_playback (db : PartyDB) (room_code : String) :
    Except ApiError Unit :=
  match findActiveRoom db room_code with
  | none => .error .notFound
  | some _ => .ok ()

/-- One call to any endpoint of the party API, with the nondeterministic
inputs (generated code, timestamps) as constructor data. -/
inductive PartyOp where
  | create (party_data : PartyRoomCreate) (code : String) (now : String)
  | join (join_data : PartyJoinRequest) (now : String)
  | leave (room_code : String) (user_id : String)
  | endRoom (room_code : String)
  | get (room_code : String)
  | sync (room_code : String)
  deriving Repr

/-- The store after one endpoint call (an erroring call left the store
unchanged: either nothing was committed or the transaction rolled back). -/
def applyPartyOp (db : PartyDB) : PartyOp → PartyDB
  | .create party_data code now => (create_party_room db party_data code now).1
  | .join join_data now => (join_party_room db join_data now).1
  | .leave room_code user_id => (leave_party_room db room_code user_id).1
  | .endRoom room_code => (end_party_room db room_code).1
  | .get _ => db
  | .sync _ => db

/-! ## The `Movie` table and the update endpoints -/

/-- The `Movie` ORM row (table `movies`).  `rating` is a nullable float
column, modelled as `Option ℚ`; `status` is a nullable string column. -/
structure MovieRow where
  id : Int
  tmdb_id : Option Int
  title : String
  director : String
  genre : String
  platform : String
  status : Option String
  rating : Option ℚ
  review : Option String
  episodes_watched : Int
  total_episodes : Option Int
  minutes_watched : Int
  total_minutes : Option Int
  is_tv_show : Bool
  poster_path : Option String
  release_date : Option String
  overview : Option String
  deriving Repr, DecidableEq

/-- The movies table. -/
abbrev MovieDB := List MovieRow

/-- `db.query(Movie).filter(Movie.id == movie_id).first()`. -/
def findMovie (db : MovieDB) (movie_id : Int) : Option MovieRow :=
  db.find? (fun m => m.id == movie_id)

/-- Committing a mutation of the row fetched for `movie_id` (primary key,
hence unique). -/
def commitMovie (db : MovieDB) (movie_id : Int) (movie : MovieRow) : MovieDB :=
  db.map (fun m => if m.id == movie_id then movie else m)

/-- `EPISODE_DURATION_MINUTES = 20`. -/
def EPISODE_DURATION_MINUTES : Int := 20

/-- The pydantic `MovieUpdate` body under `dict(exclude_unset=True)`: the
outer `Option` is "was the field provided at all"; for the fields whose
column is nullable the inner `Option` is the provided JSON null.  The
`set_default_int` validator has already coerced a provided null
`episodes_watched`/`minutes_watched` to `0`, so those carry a plain `Int`. -/
structure MovieUpdate where
  rating : Option (Option ℚ) := none
  review : Option (Option String) := none
  episodes_watched : Option Int := none
  minutes_watched : Option Int := none
  total_minutes : Option (Option Int) := none
  status : Option (Option String) := none
  deriving Repr, DecidableEq

/-- `update_movie` (`PUT /movies/{movie_id}`).  For a TV show with a
provided `episodes_watched`, `minutes_watched` is overwritten with
`new_episodes * EPISODE_DURATION_MINUTES` and — when `total_episodes` is
truthy (non-null and non-zero) — `status` is overwritten with the
auto-computed lifecycle value.  Every provided field is then `setattr`'d
onto the row and committed.  Note there is no range check on `rating`
here. -/
def update_movie (db : MovieDB) (movie_id : Int) (movie_update : MovieUpdate) :
    MovieDB × Except ApiError MovieRow :=
  match findMovie db movie_id with
  | none => (db, .error .notFound)
  | some db_movie =>
    let epUpdate := db_movie.is_tv_show && movie_update.episodes_watched.isSome
    let new_episodes : Int := movie_update.episodes_watched.getD 0
    let minutesData : Option Int :=
      if epUpdate then some (new_episodes * EPISODE_DURATION_MINUTES)
      else movie_update.minutes_watched
    let statusData : Option (Option String) :=
      if epUpdate then
        match db_movie.total_episodes with
        | some total =>
          if total != 0 then
            some (some (if new_episodes == 0 then "wishlist"
                        else if new_episodes ≥ total then "completed"
                        else "watching"))
          else movie_update.status
        | none => movie_update.status
      else movie_update.status
    let movie' : MovieRow :=
      { db_movie with
        rating := movie_update.rating.getD db_movie.rating
        review := movie_update.review.getD db_movie.review
        episodes_watched := movie_update.episodes_watched.getD db_movie.episodes_watched
        minutes_watched := minutesData.getD db_movie.minutes_watched
        total_minutes := movie_update.total_minutes.getD db_movie.total_minutes
        status := statusData.getD db_movie.status }
    (commitMovie db movie_id movie', .ok movie')

/-- The pydantic `RatingReviewUpdate` body: both fields optional, and the
handler treats a provided null the same as an absent field (`is not None`
checks), so a single `Option` per field suffices. -/
structure RatingReviewUpdate where
  rating : Option ℚ := none
  review : Option String := none
  deriving Repr, DecidableEq

/-- `update_rating_review` (`PUT /movies/{movie_id}/rating-review`): a
provided rating outside `[0, 10]` raises HTTP 400 before anything is
mutated; otherwise the provided fields are written and committed. -/
def update_rating_review (db : MovieDB) (movie_id : Int)
    (update : RatingReviewUpdate) : MovieDB × Except ApiError MovieRow :=
  match findMovie db movie_id with
  | none => (db, .error .notFound)
  | some db_movie =>
    match update.rating with
    | some r =>
      if r < 0 ∨ r > 10 then (db, .error .validationError)
      else
        let movie' := { db_movie with
          rating := some r
          review := (update.review.map some).getD db_movie.review }
        (commitMovie db movie_id movie', .ok movie')
    | none =>
      let movie' := { db_movie with review := (update.review.map some).getD db_movie.review }
      (commitMovie db movie_id movie', .ok movie')

/-- The pydantic `ReviewGenerationRequest` body. -/
structure ReviewGenerationRequest where
  user_notes : String := ""
  rating : Option ℚ := none
  length : Option String := some "medium"
  deriving Repr, DecidableEq

/-- `generate_ai21_review` (`POST /movies/{movie_id}/generate-review`).
The AI21 generator is an oracle `gen` (title, notes, rating, length) that
may raise, and the template fallback is the total oracle `fallback`.  When
the movie id is absent the handler raises HTTP 404 inside its own `try`,
the generic `except Exception` swallows it, and the fallback path then
dereferences `db_movie = None` (`db_movie.title`), so the request ends as
an HTTP 500 (`serverError`).  On the success and fallback paths nothing is
ever written to the store. -/
def generate_ai21_review (db : MovieDB) (movie_id : Int)
    (request : ReviewGenerationRequest)
    (gen : String → String → Option ℚ → Option String → Except Unit String)
    (fallback : String → String → Option ℚ → Option String → String) :
    MovieDB × Except ApiError String :=
  match findMovie db movie_id with
  | none => (db, .error .serverError)
  | some db_movie =>
    match gen db_movie.title request.user_notes request.rating request.length with
    | .ok review => (db, .ok review)
    | .error _ =>
      (db, .ok (fallback db_movie.title request.user_notes request.rating request.length))

/-! ## TMDB discovery and the recommendation engine -/

/-- `TMDB_GENRE_IDS` (genre name → TMDB genre id); `.get` on a missing key
is `none`. -/
def TMDB_GENRE_IDS (genre : String) : Option Int :=
  match genre with
  | "Action" => some 28
  | "Adventure" => some 12
  | "Animation" => some 16
  | "Comedy" => some 35
  | "Crime" => some 80
  | "Documentary" => some 99
  | "Drama" => some 18
  | "Family" => some 10751
  | "Fantasy" => some 14
  | "History" => some 36
  | "Horror" => some 27
  | "Music" => some 10402
  | "Mystery" => some 9648
  | "Romance" => some 10749
  | "Science Fiction" => some 878
  | "TV Movie" => some 10770
  | "Thriller" => some 53
  | "War" => some 10752
  | "Western" => some 37
  | _ => none

/-- One discovery result dict as shaped by `TMDBService.discover_by_genre` /
`discover_tv_by_genre` / `get_highly_rated_movies`: only the fields the
engine reads or writes are listed (`id` drives all deduplication, and
`media_type` feeds the recommendation-reason string). -/
structure RecResult where
  id : Int
  title : Option String := none
  media_type : String := "movie"
  recommendation_reason : String := ""
  deriving Repr, DecidableEq

/-- `TMDBService.discover_by_genre` / `discover_tv_by_genre` for a fixed
genre id: return the cached value on a cache hit; return `[]` when neither
API key nor access token is configured; otherwise perform the HTTP call
(an oracle that may raise) and catch any exception as `[]` — the internal
`except Exception` clause. -/
def discover_by_genre (cache : Option (List RecResult)) (configured : Bool)
    (http : Except Unit (List RecResult)) : List RecResult :=
  match cache with
  | some cached_data => cached_data
  | none =>
    if !configured then []
    else
      match http with
      | .ok results => results
      | .error _ => []

/-- Python's `str.split(',')`, written over the string's character list so
that it evaluates by kernel reduction: split at every comma, keeping empty
pieces. -/
def pySplitComma (s : String) : List String :=
  (s.data.splitOn ',').map (fun cs => String.mk cs)

/-- Python's `str.strip()`: drop leading and trailing whitespace. -/
def pyStrip (s : String) : String :=
  String.mk (((s.data.dropWhile Char.isWhitespace).reverse.dropWhile
    Char.isWhitespace).reverse)

/-- `if movie.genre and movie.genre != "Not specified": [g.strip() for g in
movie.genre.split(',')]` — the genre tokens one `Movie` row contributes to
the histogram. -/
def genreTokens (movie : MovieRow) : List String :=
  if movie.genre != "" && movie.genre != "Not specified" then
    (pySplitComma movie.genre).map pyStrip
  else []

/-- `genre_stats[genre] = genre_stats.get(genre, 0) + 1` on an
insertion-ordered dict modelled as an association list. -/
def bumpStat (stats : List (String × Nat)) (genre : String) : List (String × Nat) :=
  match stats with
  | [] => [(genre, 1)]
  | (k, v) :: rest =>
    if k == genre then (k, v + 1) :: rest else (k, v) :: bumpStat rest genre

/-- The genre frequency histogram of a collection (the `genre_stats` dict
of `_get_genre_based_recommendations` and `_get_recommendation_reasons`). -/
def genre_stats (user_movies : MovieDB) : List (String × Nat) :=
  user_movies.foldl (fun stats movie => (genreTokens movie).foldl bumpStat stats) []

/-- `genre_stats.get(genre, 0)`: the count recorded for a genre in the
histogram, zero when absent. -/
def statCount (stats : List (String × Nat)) (genre : String) : Nat :=
  match stats.find? (fun kv => kv.1 == genre) with
  | some kv => kv.2
  | none => 0

/-- Stable insertion into a descending-by-count list: the inserted element
(which precedes the list's elements in the original order) moves past an
element only when that element's count is strictly larger, so equal counts
keep their original relative order — the stability guarantee of Python's
`sorted(..., key=lambda x: x[1], reverse=True)`. -/
def insertDescByCount (x : String × Nat) :
    List (String × Nat) → List (String × Nat)
  | [] => [x]
  | y :: rest =>
    if y.2 > x.2 then y :: insertDescByCount x rest else x :: y :: rest

/-- `sorted(genre_stats.items(), key=lambda x: x[1], reverse=True)`:
a stable descending sort by count. -/
def sortDescByCount (stats : List (String × Nat)) : List (String × Nat) :=
  stats.foldr insertDescByCount []

/-- The inner `for result in ...` loop shared verbatim by the genre pass of
`_get_genre_based_recommendations` and the fallback pass of
`_get_additional_recommendations`: skip a result whose `id` matches a
`tmdb_id` in the user's collection, skip a result whose `id` is already
staged, otherwise stamp its `recommendation_reason` and append it, then
break once `len(recommendations) >= max_results`. -/
def recAccumLoop (user_movies : MovieDB) (max_results : Int)
    (reason : RecResult → String) :
    List RecResult → List RecResult → List RecResult
  | [], recommendations => recommendations
  | result :: rest, recommendations =>
    if user_movies.any (fun m => m.tmdb_id == some result.id) then
      recAccumLoop user_movies max_results reason rest recommendations
    else if recommendations.any (fun r => r.id == result.id) then
      recAccumLoop user_movies max_results reason rest recommendations
    else
      let recommendations' :=
        recommendations ++ [{ result with recommendation_reason := reason result }]
      if (recommendations'.length : Int) ≥ max_results then recommendations'
      else recAccumLoop user_movies max_results reason rest recommendations'

/-- The `for genre, count in top_genres` loop of
`_get_genre_based_recommendations`: look the genre up in
`TMDB_GENRE_IDS` (skipping unknown genres), concatenate the movie and TV
discovery results, run the accumulation loop with reason
`f"Popular {genre} {result['media_type']}"`, and break once the maximum is
reached. -/
def genrePassLoop (user_movies : MovieDB) (max_results : Int)
    (discM discT : Int → List RecResult) :
    List (String × Nat) → List RecResult → List RecResult
  | [], recommendations => recommendations
  | (genre, _count) :: rest, recommendations =>
    match TMDB_GENRE_IDS genre with
    | none => genrePassLoop user_movies max_results discM discT rest recommendations
    | some genre_id =>
      let all_results := discM genre_id ++ discT genre_id
      let recommendations' :=
        recAccumLoop user_movies max_results
          (fun result => "Popular " ++ genre ++ " " ++ result.media_type)
          all_results recommendations
      if (recommendations'.length : Int) ≥ max_results then recommendations'
      else genrePassLoop user_movies max_results discM discT rest recommendations'

/-- `RecommendationEngine._get_additional_recommendations`: pad with the
highly-rated fallback list (the oracle `discTop`, called with the number of
remaining slots), de-duplicating with the same rule and the fixed reason
`"Critically acclaimed"`. -/
def get_additional_recommendations (user_movies : MovieDB)
    (current_recommendations : List RecResult) (max_results : Int)
    (discTop : Int → List RecResult) : List RecResult :=
  let remaining_slots : Int := max_results - current_recommendations.length
  if remaining_slots ≤ 0 then current_recommendations
  else
    recAccumLoop user_movies max_results (fun _ => "Critically acclaimed")
      (discTop remaining_slots) current_recommendations

/-- `RecommendationEngine._get_genre_based_recommendations`: build the
histogram, take the top 3 genres of the stable descending sort, run the
genre passes, and pad with the fallback when short of `max_results`. -/
def get_genre_based_recommendations (user_movies : MovieDB) (max_results : Int)
    (discM discT : Int → List RecResult) (discTop : Int → List RecResult) :
    List RecResult :=
  let stats := genre_stats user_movies
  if stats.isEmpty then []
  else
    let top_genres := (sortDescByCount stats).take 3
    let recommendations := genrePassLoop user_movies max_results discM discT top_genres []
    if (recommendations.length : Int) < max_results then
      get_additional_recommendations user_movies recommendations max_results discTop
    else recommendations

/-- `reasons.add(x)` on a Python set, modelled as an insertion-ordered
duplicate-free list (no claim depends on the set's iteration order). -/
def addReason (reasons : List String) (reason : String) : List String :=
  if reasons.contains reason then reasons else reasons ++ [reason]

/-- `RecommendationEngine._get_recommendation_reasons`: phrase the top 1–2
genres, singular (`Your interest in G`) for count 1 and plural
(`Your n G movies`) otherwise. -/
def get_recommendation_reasons (user_movies : MovieDB) : List String :=
  let top_genres := (sortDescByCount (genre_stats user_movies)).take 2
  let reasons := top_genres.foldl
    (fun reasons gc =>
      if gc.2 == 1 then addReason reasons ("Your interest in " ++ gc.1)
      else addReason reasons ("Your " ++ toString gc.2 ++ " " ++ gc.1 ++ " movies"))
    []
  if reasons.isEmpty then ["Your movie collection preferences"] else reasons

/-- Python's `l[:n]` slice: clamps at the length, and a negative `n` counts
from the end. -/
def pySliceTo (l : List RecResult) (n : Int) : List RecResult :=
  if 0 ≤ n then l.take n.toNat else l.take ((l.length : Int) + n).toNat

/-- `RecommendationEngine.get_recommendations`: the empty-collection
short-circuit, else the genre-based list sliced to `max_results`, the
based-on reasons, and the found-count message. -/
def get_recommendations (user_movies : MovieDB) (max_results : Int)
    (discM discT : Int → List RecResult) (discTop : Int → List RecResult) :
    List RecResult × List String × String :=
  if user_movies.isEmpty then
    ([], ["No movies in collection"],
      "Add some movies to get genre-based recommendations")
  else
    let genre_recommendations :=
      get_genre_based_recommendations user_movies max_results discM discT discTop
    (pySliceTo genre_recommendations max_results,
      get_recommendation_reasons user_movies,
      "Found " ++ toString genre_recommendations.length ++
        " recommendations based on your favorite genres")

/-- One entry of the `/recommendations` route's enhanced list: the engine
result plus the `already_added` / `existing_status` decoration. -/
structure EnhancedRec where
  item : RecResult
  already_added : Bool
  existing_status : Option String
  deriving Repr, DecidableEq

/-- The response shape of `GET /recommendations`. -/
structure RecommendationResponse where
  recommendations : List EnhancedRec
  based_on : List String
  message : String
  deriving Repr, DecidableEq

/-- The `GET /recommendations` route handler: short-circuits an empty
collection to the fixed "add movies" response without touching the engine
or the collaborator, otherwise runs the engine and decorates each result
with whether its id is already in the collection. -/
def get_recommendations_route (db : MovieDB) (max_results : Int)
    (discM discT : Int → List RecResult) (discTop : Int → List RecResult) :
    RecommendationResponse :=
  if db.isEmpty then
    { recommendations := []
      based_on := []
      message := "Add some movies to your collection to get personalized recommendations" }
  else
    let result := get_recommendations db max_results discM discT discTop
    let enhanced := result.1.map (fun rec =>
      let existing_movie := db.find? (fun m => m.tmdb_id == some rec.id)
      { item := rec
        already_added := existing_movie.isSome
        existing_status := (existing_movie.map MovieRow.status).getD none })
    { recommendations := enhanced
      based_on := result.2.1
      message := result.2.2 }

/-- The two safety properties of a staged recommendation list: no entry's
external id occurs as a `tmdb_id` in the user's collection, and the staged
external ids are pairwise distinct. -/
def recsOk (user_movies : MovieDB) (recs : List RecResult) : Prop :=
  (∀ r ∈ recs, ∀ m ∈ user_movies, m.tmdb_id ≠ some r.id) ∧
  (recs.map RecResult.id).Nodup

/-! ## Concrete fixtures

Sample rows and request bodies used to instantiate the theorems on concrete
inputs. -/

/-- A `movies` row populated with the column defaults of the `Movie` model. -/
def baseMovie : MovieRow :=
  { id := 0, tmdb_id := none, title := "", director := "", genre := "",
    platform := "", status := some "wishlist", rating := none, review := none,
    episodes_watched := 0, total_episodes := none, minutes_watched := 0,
    total_minutes := none, is_tv_show := false, poster_path := none,
    release_date := none, overview := none }

/-- A plain tracked movie with no rating yet. -/
def sampleMovie : MovieRow :=
  { baseMovie with id := 1, tmdb_id := some 27205, title := "Inception",
                   genre := "Action", status := some "watching" }

/-- A TV show mid-watch with five known episodes. -/
def sampleShow : MovieRow :=
  { baseMovie with id := 2, tmdb_id := some 1399, title := "Sample Show",
                   is_tv_show := true, total_episodes := some 5,
                   episodes_watched := 3, minutes_watched := 60,
                   status := some "watching" }

/-- A TV show whose `total_episodes` column holds `0` (set but falsy in
Python). -/
def zeroEpisodeShow : MovieRow :=
  { baseMovie with id := 3, tmdb_id := some 2316, title := "Zero Show",
                   is_tv_show := true, total_episodes := some 0,
                   episodes_watched := 3, minutes_watched := 60,
                   status := some "watching" }

/-- Movies genred `"Action"`, `"Action, Drama"` and `"Comedy"` — the
histogram scenario of the spec. -/
def actionMovie : MovieRow :=
  { baseMovie with id := 10, tmdb_id := some 101, genre := "Action" }

/-- Second histogram-scenario movie. -/
def actionDramaMovie : MovieRow :=
  { baseMovie with id := 11, tmdb_id := some 102, genre := "Action, Drama" }

/-- Third histogram-scenario movie. -/
def comedyMovie : MovieRow :=
  { baseMovie with id := 12, tmdb_id := some 103, genre := "Comedy" }

/-- The host membership entry seeded by `create_party_room`. -/
def hostMember : Member :=
  { id := "h1", name := "Host", is_host := true, joined_at := "t0" }

/-- A non-host member who joined later. -/
def guestMember : Member :=
  { id := "u2", name := "Ann", is_host := false, joined_at := "t1" }

/-- An active room holding only its host. -/
def sampleRoom : PartyRoomRow :=
  { code := "ABC123", movie_id := 5, movie_title := "Dune",
    movie_poster := none, host_id := "h1", is_active := true,
    created_at := "t0", members := [hostMember] }

/-- An active room holding the host and one guest. -/
def sampleRoom2 : PartyRoomRow :=
  { sampleRoom with members := [hostMember, guestMember] }

/-- The room after its host left: inactive, membership frozen. -/
def endedRoom : PartyRoomRow :=
  { sampleRoom2 with is_active := false }

/-! ## Theorems -/

/-- C10: the AI-review generation endpoint
(`POST /movies/{movie_id}/generate-review`) leaves the movie store
completely unchanged for every movie id, request body, generator oracle and
fallback; the generated text only travels in the response. -/
theorem generate_review_no_store_write (db : MovieDB) (movie_id : Int)
    (request : ReviewGenerationRequest)
    (gen : String → String → Option ℚ → Option String → Except Unit String)
    (fallback : String → String → Option ℚ → Option String → String) :
    (generate_ai21_review db movie_id request gen fallback).1 = db := by
  cases hf : findMovie db movie_id with
  | none => simp [generate_ai21_review, hf]
  | some db_movie =>
    cases hg : gen db_movie.title request.user_notes request.rating request.length with
    | ok review => simp [generate_ai21_review, hf, hg]
    | error a => simp [generate_ai21_review, hf, hg]

/-- C9: on an empty collection the engine returns the fixed "add movies"
triple and the route handler the fixed "add movies" response, and neither
depends on the discovery collaborator in any way (any two oracle
instantiations give the same result, i.e. zero collaborator influence). -/
theorem empty_collection_short_circuit (max_results : Int)
    (discM discT discTop discM' discT' discTop' : Int → List RecResult) :
    get_recommendations [] max_results discM discT discTop =
      ([], ["No movies in collection"],
        "Add some movies to get genre-based recommendations") ∧
    get_recommendations_route [] max_results discM discT discTop =
      { recommendations := [], based_on := [],
        message := "Add some movies to your collection to get personalized recommendations" } ∧
    get_recommendations_route [] max_results discM discT discTop =
      get_recommendations_route [] max_results discM' discT' discTop' :=
  ⟨rfl, rfl, rfl⟩

/-- C3: joining an active room with a user id already in the membership
list fails with AlreadyMember and leaves the store untouched; joining with
a fresh user id appends exactly one non-host member carrying the join
timestamp and changes nothing else about the room. -/
theorem join_party_room_spec (db : PartyDB) (join_data : PartyJoinRequest)
    (now : String) (room : PartyRoomRow)
    (hfind : findActiveRoom db join_data.room_code = some room) :
    (room.members.any (fun m => m.id == join_data.user_id) = true →
      join_party_room db join_data now = (db, .error .alreadyMember)) ∧
    (room.members.any (fun m => m.id == join_data.user_id) = false →
      join_party_room db join_data now =
        (commitRoom db room.code
          { room with members := room.members ++
              [{ id := join_data.user_id, name := join_data.user_name,
                 is_host := false, joined_at := now }] },
          .ok { room with members := room.members ++
              [{ id := join_data.user_id, name := join_data.user_name,
                 is_host := false, joined_at := now }] })) := by
  unfold join_party_room
  rw [hfind]
  constructor
  · intro h
    simp only [h, if_true]
  · intro h
    simp only [h, Bool.false_eq_true, if_false]

/-- Witness for C3 at a concrete room: the host rejoining fails with
AlreadyMember and changes nothing; a fresh guest is appended as a non-host
member. -/
theorem join_party_room_spec_witness :
    join_party_room [sampleRoom]
        { room_code := "ABC123", user_id := "h1", user_name := "X" } "t1" =
      ([sampleRoom], .error .alreadyMember) ∧
    join_party_room [sampleRoom]
        { room_code := "ABC123", user_id := "u2", user_name := "Ann" } "t1" =
      (commitRoom [sampleRoom] sampleRoom.code
          { sampleRoom with members := sampleRoom.members ++ [guestMember] },
        .ok { sampleRoom with members := sampleRoom.members ++ [guestMember] }) :=
  ⟨(join_party_room_spec [sampleRoom] _ "t1" sampleRoom (by decide)).1 (by decide),
   (join_party_room_spec [sampleRoom] _ "t1" sampleRoom (by decide)).2 (by decide)⟩

/-- C2 counterexample: the claim quantifies over every operation that can
write the rating field, but `update_movie` (`PUT /movies/{movie_id}`)
performs no range check: updating with rating 11 succeeds and persists the
out-of-range value 11 > 10 instead of failing with ValidationError. -/
theorem rating_range_invariant_cex :
    update_movie [sampleMovie] 1 { rating := some (some 11) } =
      ([{ sampleMovie with rating := some 11 }],
        .ok { sampleMovie with rating := some 11 }) ∧
    ¬ ((11 : ℚ) ≤ 10) := by
  refine ⟨rfl, by norm_num⟩

/-- C2 amended: on the rating/review endpoint
(`PUT /movies/{movie_id}/rating-review`) a provided rating outside `[0,10]`
fails with ValidationError leaving the store unchanged, and an in-range
rating is persisted exactly as given (the review updated alongside when
provided, nothing else touched). -/
theorem update_rating_review_enforces_range (db : MovieDB) (movie_id : Int)
    (update : RatingReviewUpdate) (movie : MovieRow) (r : ℚ)
    (hfind : findMovie db movie_id = some movie)
    (hr : update.rating = some r) :
    ((r < 0 ∨ r > 10) →
      update_rating_review db movie_id update = (db, .error .validationError)) ∧
    (0 ≤ r → r ≤ 10 →
      update_rating_review db movie_id update =
        (commitMovie db movie_id
          { movie with rating := some r,
                       review := (update.review.map some).getD movie.review },
          .ok { movie with rating := some r,
                           review := (update.review.map some).getD movie.review })) := by
  have hred : update_rating_review db movie_id update =
      if r < 0 ∨ r > 10 then (db, .error .validationError)
      else
        (commitMovie db movie_id
          { movie with rating := some r,
                       review := (update.review.map some).getD movie.review },
          .ok { movie with rating := some r,
                           review := (update.review.map some).getD movie.review }) := by
    unfold update_rating_review
    rw [hfind, hr]
  constructor
  · intro h
    rw [hred, if_pos h]
  · intro h0 h10
    rw [hred, if_neg (by push_neg; exact ⟨h0, h10⟩)]

/-- Witness for C2's amended claim: rating 11 fails ValidationError with
the store untouched; rating 7.5 is stored exactly. -/
theorem update_rating_review_enforces_range_witness :
    update_rating_review [sampleMovie] 1 { rating := some 11 } =
      ([sampleMovie], .error .validationError) ∧
    update_rating_review [sampleMovie] 1 { rating := some (7.5 : ℚ) } =
      (commitMovie [sampleMovie] 1 { sampleMovie with rating := some (7.5 : ℚ) },
        .ok { sampleMovie with rating := some (7.5 : ℚ) }) := by
  constructor
  · exact (update_rating_review_enforces_range [sampleMovie] 1 _ sampleMovie 11
      (by decide) rfl).1 (by norm_num)
  · exact (update_rating_review_enforces_range [sampleMovie] 1 _ sampleMovie (7.5 : ℚ)
      (by decide) rfl).2 (by norm_num) (by norm_num)

/-- C7 counterexample: for a TV show whose `total_episodes` column is set
to `0`, an update putting `episodes_watched` at `0` (which equals the
total) leaves the stored status untouched at "watching" — Python's
truthiness check `if db_movie.total_episodes:` skips the auto-transition
for a zero total, so neither the claimed "wishlist" nor "completed" is
stored. -/
theorem episode_status_zero_total_cex :
    update_movie [zeroEpisodeShow] 3 { episodes_watched := some 0 } =
      ([{ zeroEpisodeShow with episodes_watched := 0, minutes_watched := 0 }],
        .ok { zeroEpisodeShow with episodes_watched := 0, minutes_watched := 0 }) ∧
    ({ zeroEpisodeShow with
        episodes_watched := 0, minutes_watched := 0 } : MovieRow).status =
      some "watching" ∧
    (some "watching" : Option String) ≠ some "wishlist" ∧
    (some "watching" : Option String) ≠ some "completed" := by
  refine ⟨rfl, rfl, by decide, by decide⟩

/-- C7 amended: for a TV show with a positive total-episode count, an
episode update to the total persists status "completed", an update to `0`
persists "wishlist", and an update strictly between persists "watching"
(with the watched minutes recomputed at 20 minutes per episode). -/
theorem episode_update_status_transitions (db : MovieDB) (movie_id : Int)
    (u : MovieUpdate) (m : MovieRow) (t e : Int)
    (hfind : findMovie db movie_id = some m)
    (htv : m.is_tv_show = true) (htot : m.total_episodes = some t)
    (hpos : 0 < t) (hep : u.episodes_watched = some e) :
    (e = t → update_movie db movie_id u =
      (commitMovie db movie_id
        { m with rating := u.rating.getD m.rating,
                 review := u.review.getD m.review,
                 total_minutes := u.total_minutes.getD m.total_minutes,
                 episodes_watched := e,
                 minutes_watched := e * EPISODE_DURATION_MINUTES,
                 status := some "completed" },
        .ok { m with rating := u.rating.getD m.rating,
                     review := u.review.getD m.review,
                     total_minutes := u.total_minutes.getD m.total_minutes,
                     episodes_watched := e,
                     minutes_watched := e * EPISODE_DURATION_MINUTES,
                     status := some "completed" })) ∧
    (e = 0 → update_movie db movie_id u =
      (commitMovie db movie_id
        { m with rating := u.rating.getD m.rating,
                 review := u.review.getD m.review,
                 total_minutes := u.total_minutes.getD m.total_minutes,
                 episodes_watched := e,
                 minutes_watched := e * EPISODE_DURATION_MINUTES,
                 status := some "wishlist" },
        .ok { m with rating := u.rating.getD m.rating,
                     review := u.review.getD m.review,
                     total_minutes := u.total_minutes.getD m.total_minutes,
                     episodes_watched := e,
                     minutes_watched := e * EPISODE_DURATION_MINUTES,
                     status := some "wishlist" })) ∧
    (0 < e → e < t → update_movie db movie_id u =
      (commitMovie db movie_id
        { m with rating := u.rating.getD m.rating,
                 review := u.review.getD m.review,
                 total_minutes := u.total_minutes.getD m.total_minutes,
                 episodes_watched := e,
                 minutes_watched := e * EPISODE_DURATION_MINUTES,
                 status := some "watching" },
        .ok { m with rating := u.rating.getD m.rating,
                     review := u.review.getD m.review,
                     total_minutes := u.total_minutes.getD m.total_minutes,
                     episodes_watched := e,
                     minutes_watched := e * EPISODE_DURATION_MINUTES,
                     status := some "watching" })) := by
  unfold update_movie
  rw [hfind]
  simp only [htv, hep, htot, Option.isSome_some, Bool.and_self, if_true,
    Option.getD_some, bne_iff_ne, ne_eq, beq_iff_eq]
  have htne : ¬ (t = 0) := by omega
  refine ⟨?_, ?_, ?_⟩
  · intro he
    subst he
    rw [if_pos htne, if_neg (by omega), if_pos (by omega)]
    rfl
  · intro he
    subst he
    rw [if_pos htne, if_pos rfl]
    rfl
  · intro h0 hlt
    rw [if_pos htne, if_neg (by omega), if_neg (by omega)]
    rfl

/-- Witness for C7's amended claim on the concrete five-episode show:
updating to 5 of 5 episodes persists "completed". -/
theorem episode_update_status_transitions_witness :
    update_movie [sampleShow] 2 { episodes_watched := some 5 } =
      (commitMovie [sampleShow] 2
        { sampleShow with episodes_watched := 5,
                          minutes_watched := 5 * EPISODE_DURATION_MINUTES,
                          status := some "completed" },
        .ok { sampleShow with episodes_watched := 5,
                              minutes_watched := 5 * EPISODE_DURATION_MINUTES,
                              status := some "completed" }) :=
  (episode_update_status_transitions [sampleShow] 2 _ sampleShow 5 5
    (by decide) (by decide) (by decide) (by decide) rfl).1 rfl

/-- Filtering out a user id that occurs in a membership list with pairwise
distinct ids removes exactly one entry. -/
theorem filter_out_unique_id_length (members : List Member) (u : String)
    (hnd : (members.map Member.id).Nodup)
    (hmem : members.any (fun m => m.id == u) = true) :
    (members.filter (fun m => !(m.id == u))).length + 1 = members.length := by
  induction members with
  | nil => simp at hmem
  | cons m rest ih =>
    rw [List.map_cons, List.nodup_cons] at hnd
    rw [List.any_cons] at hmem
    by_cases hm : m.id = u
    · have hall : ∀ x ∈ rest, (!(x.id == u)) = true := by
        intro x hx
        have hxm : x.id ∈ rest.map Member.id := List.mem_map_of_mem Member.id hx
        simp only [Bool.not_eq_true', beq_eq_false_iff_ne, ne_eq]
        intro hxe
        exact hnd.1 (by rw [hm, ← hxe]; exact hxm)
      rw [List.filter_cons, if_neg (by simp [hm]), List.filter_eq_self.mpr hall]
      simp
    · have hmem' : rest.any (fun x => x.id == u) = true := by
        rcases (Bool.or_eq_true _ _ ▸ hmem : (m.id == u) = true ∨
            rest.any (fun x => x.id == u) = true) with h | h
        · exact absurd (by simpa using h) hm
        · exact h
      rw [List.filter_cons, if_pos (by simp [hm])]
      have := ih hnd.2 hmem'
      simp only [List.length_cons]
      omega

/-- C1: leaving an active room behaves asymmetrically by host status — the
departing host flips `is_active` to false and leaves the persisted
membership list exactly as it was, while a departing non-host member keeps
the room active and removes exactly their one entry (ids being pairwise
distinct); a user id not in the membership list, or a code without an
active room, fails with NotFound and leaves the store unchanged. -/
theorem leave_party_room_spec (db : PartyDB) (room_code user_id : String) :
    (findActiveRoom db room_code = none →
      leave_party_room db room_code user_id = (db, .error .notFound)) ∧
    (∀ room, findActiveRoom db room_code = some room →
      room.is_active = true ∧
      (room.members.any (fun m => m.id == user_id) = false →
        leave_party_room db room_code user_id = (db, .error .notFound)) ∧
      (room.members.any (fun m => m.id == user_id) = true →
        (user_id = room.host_id →
          leave_party_room db room_code user_id =
            (commitRoom db room.code { room with is_active := false },
              .ok { room with is_active := false })) ∧
        (user_id ≠ room.host_id →
          leave_party_room db room_code user_id =
            (commitRoom db room.code
              { room with members :=
                  room.members.filter (fun m => !(m.id == user_id)) },
              .ok { room with members :=
                  room.members.filter (fun m => !(m.id == user_id)) }) ∧
          ((room.members.map Member.id).Nodup →
            (room.members.filter (fun m => !(m.id == user_id))).length + 1 =
              room.members.length)))) := by
  constructor
  · intro hnone
    unfold leave_party_room
    rw [hnone]
  · intro room hfind
    have hact : room.is_active = true := by
      have := List.find?_some hfind
      exact (Bool.and_eq_true _ _).mp this |>.2
    have hlen : ∀ hmem : room.members.any (fun m => m.id == user_id) = true,
        (room.members.filter (fun m => !(m.id == user_id))).length <
          room.members.length := by
      intro hmem
      apply List.length_filter_lt_length_iff_exists.mpr
      rcases List.any_eq_true.mp hmem with ⟨x, hx, hxu⟩
      exact ⟨x, hx, by simp [hxu]⟩
    refine ⟨hact, ?_, ?_⟩
    · intro hno
      have hred : leave_party_room db room_code user_id =
          (if (room.members.filter (fun m => !(m.id == user_id))).length <
              room.members.length then
            if user_id == room.host_id then
              (commitRoom db room.code { room with is_active := false },
                .ok { room with is_active := false })
            else
              (commitRoom db room.code
                { room with members :=
                    room.members.filter (fun m => !(m.id == user_id)) },
                .ok { room with members :=
                    room.members.filter (fun m => !(m.id == user_id)) })
          else (db, .error .notFound)) := by
        unfold leave_party_room
        rw [hfind]
      rw [hred, if_neg]
      intro hlt
      rcases List.length_filter_lt_length_iff_exists.mp hlt with ⟨x, hx, hxu⟩
      have hfalse := List.any_eq_false.mp hno x hx
      exact hxu (by simp only [Bool.not_eq_true] at hfalse ⊢; simp [hfalse])
    · intro hmem
      have hred : leave_party_room db room_code user_id =
          (if (room.members.filter (fun m => !(m.id == user_id))).length <
              room.members.length then
            if user_id == room.host_id then
              (commitRoom db room.code { room with is_active := false },
                .ok { room with is_active := false })
            else
              (commitRoom db room.code
                { room with members :=
                    room.members.filter (fun m => !(m.id == user_id)) },
                .ok { room with members :=
                    room.members.filter (fun m => !(m.id == user_id)) })
          else (db, .error .notFound)) := by
        unfold leave_party_room
        rw [hfind]
      rw [hred, if_pos (hlen hmem)]
      constructor
      · intro hhost
        rw [if_pos (by simp [hhost])]
      · intro hne
        rw [if_neg (by simp [hne])]
        exact ⟨rfl, fun hnd => filter_out_unique_id_length room.members user_id hnd hmem⟩

/-- Witness for C1 on a concrete two-member room: the guest leaving keeps
the room active and removes exactly one entry; the host leaving
deactivates the room with membership untouched; an absent user and an
unknown code fail with NotFound. -/
theorem leave_party_room_spec_witness :
    leave_party_room [sampleRoom2] "ABC123" "u2" =
      (commitRoom [sampleRoom2] sampleRoom2.code
        { sampleRoom2 with members := [hostMember] },
        .ok { sampleRoom2 with members := [hostMember] }) ∧
    leave_party_room [sampleRoom2] "ABC123" "h1" =
      (commitRoom [sampleRoom2] sampleRoom2.code
        { sampleRoom2 with is_active := false },
        .ok { sampleRoom2 with is_active := false }) ∧
    leave_party_room [sampleRoom2] "ABC123" "zz" = ([sampleRoom2], .error .notFound) ∧
    leave_party_room [sampleRoom2] "XXXXXX" "u2" = ([sampleRoom2], .error .notFound) := by
  refine ⟨?_, ?_, ?_, ?_⟩
  · have h := (((leave_party_room_spec [sampleRoom2] "ABC123" "u2").2 sampleRoom2
      (by decide)).2.2 (by decide)).2 (by decide)
    exact h.1
  · exact (((leave_party_room_spec [sampleRoom2] "ABC123" "h1").2 sampleRoom2
      (by decide)).2.2 (by decide)).1 rfl
  · exact ((leave_party_room_spec [sampleRoom2] "ABC123" "zz").2 sampleRoom2
      (by decide)).2.1 (by decide)
  · exact (leave_party_room_spec [sampleRoom2] "XXXXXX" "u2").1 (by decide)

/-- One `genre_stats[genre] = genre_stats.get(genre, 0) + 1` step raises
exactly the bumped genre's recorded count by one. -/
theorem statCount_bumpStat (stats : List (String × Nat)) (t g : String) :
    statCount (bumpStat stats t) g =
      statCount stats g + (if t == g then 1 else 0) := by
  induction stats with
  | nil =>
    by_cases h : t = g
    · simp [bumpStat, statCount, List.find?, h]
    · simp [bumpStat, statCount, List.find?, h,
        show (t == g) = false by simpa using h]
  | cons kv rest ih =>
    obtain ⟨k, v⟩ := kv
    by_cases hkt : k = t
    · subst hkt
      by_cases hkg : k = g
      · subst hkg
        simp [bumpStat, statCount, List.find?]
      · simp [bumpStat, statCount, List.find?, hkg,
          show (k == g) = false by simpa using hkg]
    · by_cases hkg : k = g
      · subst hkg
        have htg : (t == k) = false := by
          simpa using fun h => hkt h.symm
        simp [bumpStat, statCount, List.find?,
          show (k == t) = false by simpa using hkt, htg]
      · have h1 : (k == t) = false := by simpa using hkt
        have h2 : (k == g) = false := by simpa using hkg
        simp only [bumpStat, h1, Bool.false_eq_true, if_false]
        simp only [statCount, List.find?, h2]
        simpa [statCount] using ih

/-- Folding one item's token list into the histogram adds that list's
occurrence count of each genre. -/
theorem statCount_foldl_bumpStat (tokens : List String)
    (stats : List (String × Nat)) (g : String) :
    statCount (tokens.foldl bumpStat stats) g =
      statCount stats g + tokens.count g := by
  induction tokens generalizing stats with
  | nil => simp
  | cons t rest ih =>
    rw [List.foldl_cons, ih, statCount_bumpStat, List.count_cons]
    omega

/-- The histogram records, for every genre, the total number of token
occurrences of that genre across the collection. -/
theorem statCount_genre_stats (user_movies : MovieDB) (g : String) :
    statCount (genre_stats user_movies) g =
      ((user_movies.map genreTokens).flatten).count g := by
  suffices h : ∀ (ms : MovieDB) (stats : List (String × Nat)),
      statCount (ms.foldl (fun st m => (genreTokens m).foldl bumpStat st) stats) g =
        statCount stats g + ((ms.map genreTokens).flatten).count g by
    simpa [statCount, genre_stats] using h user_movies []
  intro ms
  induction ms with
  | nil => simp
  | cons m rest ih =>
    intro stats
    rw [List.foldl_cons, ih, statCount_foldl_bumpStat]
    simp [List.count_append]
    omega

/-- C8: the genre histogram counts one occurrence per comma-split,
whitespace-trimmed genre token per item (stated in general as the token
occurrence count of each genre), and on the concrete three-item collection
genred "Action", "Action, Drama", "Comedy" it yields
`{Action: 2, Drama: 1, Comedy: 1}` with the stable descending top-3
selection putting Action first, followed by Drama and Comedy. -/
theorem genre_histogram_spec :
    (∀ (user_movies : MovieDB) (g : String),
      statCount (genre_stats user_movies) g =
        ((user_movies.map genreTokens).flatten).count g) ∧
    genre_stats [actionMovie, actionDramaMovie, comedyMovie] =
      [("Action", 2), ("Drama", 1), ("Comedy", 1)] ∧
    (sortDescByCount (genre_stats [actionMovie, actionDramaMovie, comedyMovie])).take 3 =
      [("Action", 2), ("Drama", 1), ("Comedy", 1)] :=
  ⟨statCount_genre_stats, by decide, by decide⟩

/-- When every row carrying a code is inactive, the active-room lookup on
that code finds nothing. -/
theorem findActiveRoom_eq_none (db : PartyDB) (c : String)
    (hall : ∀ r ∈ db, r.code = c → r.is_active = false) :
    findActiveRoom db c = none := by
  apply List.find?_eq_none.mpr
  intro r hr hcon
  rcases Bool.and_eq_true _ _ ▸ hcon with ⟨h1, h2⟩
  rw [hall r hr (by simpa using h1)] at h2
  exact Bool.false_ne_true h2

/-- Replacing the row carrying some code by a row with the same code keeps
an all-rows-with-code-`c`-inactive store all-inactive, provided the
replacement either carries a different code or is itself inactive; the
existence of a row with code `c` is also kept. -/
theorem commitRoom_preserves_inactive (db : PartyDB) (c code : String)
    (room' : PartyRoomRow)
    (hex : ∃ r ∈ db, r.code = c)
    (hall : ∀ r ∈ db, r.code = c → r.is_active = false)
    (hcode : room'.code = code)
    (hcase : code ≠ c ∨ room'.is_active = false) :
    (∃ r ∈ commitRoom db code room', r.code = c) ∧
    (∀ r ∈ commitRoom db code room', r.code = c → r.is_active = false) := by
  constructor
  · rcases hex with ⟨r0, hr0, hc0⟩
    refine ⟨if r0.code == code then room' else r0,
      List.mem_map_of_mem _ hr0, ?_⟩
    by_cases hb : r0.code = code
    · rw [if_pos (by simpa using hb), hcode, ← hb, hc0]
    · rw [if_neg (by simpa using hb)]
      exact hc0
  · intro r' hmem hcc
    rcases List.mem_map.mp hmem with ⟨r, hr, heq⟩
    by_cases hb : r.code = code
    · rw [if_pos (by simpa using hb)] at heq
      subst heq
      rcases hcase with hcase | hcase
      · exact absurd (hcode ▸ hcc) hcase
      · exact hcase
    · rw [if_neg (by simpa using hb)] at heq
      subst heq
      exact hall r hr hcc

/-- An active-room lookup that succeeds returns a member of the store whose
code matches the query and whose flag is set. -/
theorem findActiveRoom_spec (db : PartyDB) (c : String) (room : PartyRoomRow)
    (h : findActiveRoom db c = some room) :
    room ∈ db ∧ room.code = c ∧ room.is_active = true := by
  have hp := List.find?_some h
  rw [Bool.and_eq_true] at hp
  exact ⟨List.mem_of_find?_eq_some h, by simpa using hp.1, hp.2⟩

/-- One endpoint call preserves "some row carries code `c` and every row
carrying code `c` is inactive". -/
theorem applyPartyOp_preserves_inactive (db : PartyDB) (c : String)
    (op : PartyOp)
    (hex : ∃ r ∈ db, r.code = c)
    (hall : ∀ r ∈ db, r.code = c → r.is_active = false) :
    (∃ r ∈ applyPartyOp db op, r.code = c) ∧
    (∀ r ∈ applyPartyOp db op, r.code = c → r.is_active = false) := by
  cases op with
  | create party_data code now =>
    have hred : applyPartyOp db (PartyOp.create party_data code now) =
        if db.any (fun r => r.code == code) then db
        else db ++ [{ code := code, movie_id := party_data.movie_id,
                      movie_title := party_data.movie_title,
                      movie_poster := party_data.movie_poster,
                      host_id := party_data.host_id, is_active := true,
                      created_at := now,
                      members := [{ id := party_data.host_id, name := "Host",
                                    is_host := true, joined_at := now }] }] := by
      show (create_party_room db party_data code now).1 = _
      unfold create_party_room
      split <;> rfl
    rw [hred]
    by_cases hany : db.any (fun r => r.code == code) = true
    · rw [if_pos hany]
      exact ⟨hex, hall⟩
    · rw [if_neg hany]
      have hcne : code ≠ c := by
        intro hcc
        subst hcc
        rcases hex with ⟨r0, hr0, hc0⟩
        exact hany (List.any_eq_true.mpr ⟨r0, hr0, by simpa using hc0⟩)
      constructor
      · rcases hex with ⟨r0, hr0, hc0⟩
        exact ⟨r0, List.mem_append_left _ hr0, hc0⟩
      · intro r hr hcc
        rcases List.mem_append.mp hr with hr | hr
        · exact hall r hr hcc
        · rw [List.mem_singleton.mp hr] at hcc
          exact absurd hcc hcne
  | join join_data now =>
    have h1 : applyPartyOp db (PartyOp.join join_data now) =
        (join_party_room db join_data now).1 := rfl
    cases hf : findActiveRoom db join_data.room_code with
    | none =>
      have hred : join_party_room db join_data now = (db, .error .notFound) := by
        unfold join_party_room
        rw [hf]
      rw [h1, hred]
      exact ⟨hex, hall⟩
    | some room =>
      rcases findActiveRoom_spec db _ room hf with ⟨hmem, hcode, hact⟩
      have hrc : room.code ≠ c := by
        intro hcc
        rw [hall room hmem hcc] at hact
        exact Bool.false_ne_true hact
      have hred : join_party_room db join_data now =
          if (room.members.any fun member => member.id == join_data.user_id) = true
          then (db, .error .alreadyMember)
          else (commitRoom db room.code
                  { room with members := room.members ++
                      [{ id := join_data.user_id, name := join_data.user_name,
                         is_host := false, joined_at := now }] },
                .ok { room with members := room.members ++
                      [{ id := join_data.user_id, name := join_data.user_name,
                         is_host := false, joined_at := now }] }) := by
        unfold join_party_room
        rw [hf]
      rw [h1, hred]
      by_cases hb : (room.members.any fun member => member.id == join_data.user_id) = true
      · rw [if_pos hb]
        exact ⟨hex, hall⟩
      · rw [if_neg hb]
        exact commitRoom_preserves_inactive db c room.code _ hex hall rfl (.inl hrc)
  | leave room_code user_id =>
    have h1 : applyPartyOp db (PartyOp.leave room_code user_id) =
        (leave_party_room db room_code user_id).1 := rfl
    cases hf : findActiveRoom db room_code with
    | none =>
      have hred : leave_party_room db room_code user_id = (db, .error .notFound) := by
        unfold leave_party_room
        rw [hf]
      rw [h1, hred]
      exact ⟨hex, hall⟩
    | some room =>
      rcases findActiveRoom_spec db _ room hf with ⟨hmem, hcode, hact⟩
      have hrc : room.code ≠ c := by
        intro hcc
        rw [hall room hmem hcc] at hact
        exact Bool.false_ne_true hact
      have hred : leave_party_room db room_code user_id =
          if (room.members.filter
              (fun member => !(member.id == user_id))).length < room.members.length
          then
            if user_id == room.host_id
            then (commitRoom db room.code { room with is_active := false },
                  .ok { room with is_active := false })
            else (commitRoom db room.code
                    { room with members :=
                        room.members.filter (fun member => !(member.id == user_id)) },
                  .ok { room with members :=
                        room.members.filter (fun member => !(member.id == user_id)) })
          else (db, .error .notFound) := by
        unfold leave_party_room
        rw [hf]
      rw [h1, hred]
      by_cases hlt : (room.members.filter
          (fun member => !(member.id == user_id))).length < room.members.length
      · rw [if_pos hlt]
        by_cases hh : (user_id == room.host_id) = true
        · rw [if_pos hh]
          exact commitRoom_preserves_inactive db c room.code _ hex hall rfl (.inl hrc)
        · rw [if_neg hh]
          exact commitRoom_preserves_inactive db c room.code _ hex hall rfl (.inl hrc)
      · rw [if_neg hlt]
        exact ⟨hex, hall⟩
  | endRoom room_code =>
    have h1 : applyPartyOp db (PartyOp.endRoom room_code) =
        (end_party_room db room_code).1 := rfl
    cases hf : findRoom db room_code with
    | none =>
      have hred : end_party_room db room_code = (db, .error .notFound) := by
        unfold end_party_room
        rw [hf]
      rw [h1, hred]
      exact ⟨hex, hall⟩
    | some room =>
      have hred : end_party_room db room_code =
          (commitRoom db room.code { room with is_active := false }, .ok ()) := by
        unfold end_party_room
        rw [hf]
      rw [h1, hred]
      exact commitRoom_preserves_inactive db c room.code _ hex hall rfl (.inr rfl)
  | get room_code => exact ⟨hex, hall⟩
  | sync room_code => exact ⟨hex, hall⟩

/-- Any sequence of endpoint calls preserves the inactive-code invariant. -/
theorem foldl_applyPartyOp_preserves_inactive (ops : List PartyOp)
    (db : PartyDB) (c : String)
    (hex : ∃ r ∈ db, r.code = c)
    (hall : ∀ r ∈ db, r.code = c → r.is_active = false) :
    (∃ r ∈ ops.foldl applyPartyOp db, r.code = c) ∧
    (∀ r ∈ ops.foldl applyPartyOp db, r.code = c → r.is_active = false) := by
  induction ops generalizing db with
  | nil => exact ⟨hex, hall⟩
  | cons op rest ih =>
    rw [List.foldl_cons]
    rcases applyPartyOp_preserves_inactive db c op hex hall with ⟨hex', hall'⟩
    exact ih _ hex' hall'

/-- C4: once every row carrying a room code is inactive (the state left by
the host leaving or by `endRoom`), no sequence of endpoint calls ever
reactivates that code, and the room stays invisible: every subsequent
`joinRoom` and `getRoom` on the code fails with NotFound, the join leaving
the store untouched. -/
theorem inactive_room_terminal (db : PartyDB) (c : String)
    (hex : ∃ r ∈ db, r.code = c)
    (hall : ∀ r ∈ db, r.code = c → r.is_active = false) (ops : List PartyOp) :
    (∀ r ∈ ops.foldl applyPartyOp db, r.code = c → r.is_active = false) ∧
    (∀ (join_data : PartyJoinRequest) (now : String), join_data.room_code = c →
      join_party_room (ops.foldl applyPartyOp db) join_data now =
        (ops.foldl applyPartyOp db, .error .notFound)) ∧
    get_party_room (ops.foldl applyPartyOp db) c = .error .notFound := by
  rcases foldl_applyPartyOp_preserves_inactive ops db c hex hall with ⟨hex', hall'⟩
  have hnone : findActiveRoom (ops.foldl applyPartyOp db) c = none :=
    findActiveRoom_eq_none _ c hall'
  refine ⟨hall', ?_, ?_⟩
  · intro join_data now hjc
    unfold join_party_room
    rw [hjc, hnone]
  · unfold get_party_room
    rw [hnone]

/-- Witness for C4 on a concrete ended room: after further traffic (a sync
and a failed rejoin), joining and fetching by the dead room's code still
fail with NotFound. -/
theorem inactive_room_terminal_witness :
    join_party_room
        ([PartyOp.sync "ABC123",
          PartyOp.join { room_code := "ABC123", user_id := "u3", user_name := "C" } "t2"
          ].foldl applyPartyOp [endedRoom])
        { room_code := "ABC123", user_id := "u3", user_name := "C" } "t3" =
      ([endedRoom], .error .notFound) ∧
    get_party_room
        ([PartyOp.sync "ABC123",
          PartyOp.join { room_code := "ABC123", user_id := "u3", user_name := "C" } "t2"
          ].foldl applyPartyOp [endedRoom]) "ABC123" =
      .error .notFound := by
  have h := inactive_room_terminal [endedRoom] "ABC123"
    (by decide) (by decide)
    [PartyOp.sync "ABC123",
     PartyOp.join { room_code := "ABC123", user_id := "u3", user_name := "C" } "t2"]
  exact ⟨h.2.1 { room_code := "ABC123", user_id := "u3", user_name := "C" } "t3" rfl,
    h.2.2⟩

/-- The shared accumulation loop keeps the staged list free of owned ids
and of duplicate ids: a result is appended only after both skip checks
fail, and appending changes neither property. -/
theorem recAccumLoop_recsOk (user_movies : MovieDB) (max_results : Int)
    (reason : RecResult → String) (results : List RecResult) :
    ∀ recs : List RecResult, recsOk user_movies recs →
      recsOk user_movies (recAccumLoop user_movies max_results reason results recs) := by
  induction results with
  | nil =>
    intro recs hok
    simpa only [recAccumLoop] using hok
  | cons result rest ih =>
    intro recs hok
    simp only [recAccumLoop]
    by_cases howned : (user_movies.any fun m => m.tmdb_id == some result.id) = true
    · rw [if_pos howned]
      exact ih recs hok
    · rw [if_neg howned]
      by_cases hdup : (recs.any fun r => r.id == result.id) = true
      · rw [if_pos hdup]
        exact ih recs hok
      · rw [if_neg hdup]
        have howned' : (user_movies.any fun m => m.tmdb_id == some result.id) = false :=
          Bool.not_eq_true _ ▸ howned
        have hdup' : (recs.any fun r => r.id == result.id) = false :=
          Bool.not_eq_true _ ▸ hdup
        have hok' : recsOk user_movies
            (recs ++ [{ result with recommendation_reason := reason result }]) := by
          constructor
          · intro r hr m hm
            rcases List.mem_append.mp hr with hr | hr
            · exact hok.1 r hr m hm
            · rw [List.mem_singleton.mp hr]
              have := List.any_eq_false.mp howned' m hm
              simpa using this
          · rw [List.map_append, List.nodup_append]
            refine ⟨hok.2, List.nodup_singleton _, ?_⟩
            intro a ha hb
            rcases List.mem_map.mp ha with ⟨q, hq, hqa⟩
            have hne : ¬(q.id == result.id) = true := List.any_eq_false.mp hdup' q hq
            have hab : a = result.id := by simpa using hb
            exact hne (beq_iff_eq.mpr (hqa.trans hab))
        by_cases hmax : ((recs ++ [{ result with
            recommendation_reason := reason result }]).length : Int) ≥ max_results
        · rw [if_pos hmax]
          exact hok'
        · rw [if_neg hmax]
          exact ih _ hok'

/-- The per-genre pass loop preserves the staged-list safety properties. -/
theorem genrePassLoop_recsOk (user_movies : MovieDB) (max_results : Int)
    (discM discT : Int → List RecResult) (top_genres : List (String × Nat)) :
    ∀ recs : List RecResult, recsOk user_movies recs →
      recsOk user_movies
        (genrePassLoop user_movies max_results discM discT top_genres recs) := by
  induction top_genres with
  | nil =>
    intro recs hok
    simpa only [genrePassLoop] using hok
  | cons gc rest ih =>
    intro recs hok
    obtain ⟨genre, count⟩ := gc
    simp only [genrePassLoop]
    split
    · exact ih recs hok
    · rename_i genre_id hg
      have hok' := recAccumLoop_recsOk user_movies max_results
        (fun result => "Popular " ++ genre ++ " " ++ result.media_type)
        (discM genre_id ++ discT genre_id) recs hok
      by_cases hmax : ((recAccumLoop user_movies max_results
          (fun result => "Popular " ++ genre ++ " " ++ result.media_type)
          (discM genre_id ++ discT genre_id) recs).length : Int) ≥ max_results
      · rw [if_pos hmax]
        exact hok'
      · rw [if_neg hmax]
        exact ih _ hok'

/-- The critically-acclaimed fallback pass preserves the staged-list
safety properties. -/
theorem get_additional_recommendations_recsOk (user_movies : MovieDB)
    (current_recommendations : List RecResult) (max_results : Int)
    (discTop : Int → List RecResult)
    (hok : recsOk user_movies current_recommendations) :
    recsOk user_movies
      (get_additional_recommendations user_movies current_recommendations
        max_results discTop) := by
  unfold get_additional_recommendations
  by_cases hrem : (max_results - (current_recommendations.length : Int)) ≤ 0
  · rw [if_pos hrem]
    exact hok
  · rw [if_neg hrem]
    exact recAccumLoop_recsOk user_movies max_results _ _ _ hok

/-- The genre-based recommendation list is safe: it never stages an owned
id and never stages the same id twice. -/
theorem get_genre_based_recommendations_recsOk (user_movies : MovieDB)
    (max_results : Int) (discM discT discTop : Int → List RecResult) :
    recsOk user_movies
      (get_genre_based_recommendations user_movies max_results discM discT discTop) := by
  unfold get_genre_based_recommendations
  have hempty : recsOk user_movies [] := ⟨by simp, by simp⟩
  by_cases hs : (genre_stats user_movies).isEmpty = true
  · rw [if_pos hs]
    exact hempty
  · rw [if_neg hs]
    have hpass := genrePassLoop_recsOk user_movies max_results discM discT
      ((sortDescByCount (genre_stats user_movies)).take 3) [] hempty
    by_cases hlen : ((genrePassLoop user_movies max_results discM discT
        ((sortDescByCount (genre_stats user_movies)).take 3) []).length : Int) <
          max_results
    · rw [if_pos hlen]
      exact get_additional_recommendations_recsOk user_movies _ max_results discTop hpass
    · rw [if_neg hlen]
      exact hpass

/-- A Python `[:n]` slice is a sublist of the original list. -/
theorem pySliceTo_sublist (l : List RecResult) (n : Int) :
    (pySliceTo l n).Sublist l := by
  unfold pySliceTo
  by_cases h : 0 ≤ n
  · rw [if_pos h]
    exact List.take_sublist _ _
  · rw [if_neg h]
    exact List.take_sublist _ _

/-- Sublists of a safe staged list are safe. -/
theorem recsOk_of_sublist (user_movies : MovieDB) (l₁ l₂ : List RecResult)
    (hsub : l₁.Sublist l₂) (hok : recsOk user_movies l₂) : recsOk user_movies l₁ :=
  ⟨fun r hr => hok.1 r (hsub.mem hr), hok.2.sublist (hsub.map RecResult.id)⟩

/-- C5: for every user collection and every behaviour of the discovery
collaborator (including overlapping genre passes and the
critically-acclaimed fallback), the engine's recommendation list contains
no external id equal to a `tmdb_id` of the collection and no two entries
with the same external id — both for the raw genre-based list and for the
final sliced list the engine returns. -/
theorem recommendations_no_owned_no_dups (user_movies : MovieDB)
    (max_results : Int) (discM discT discTop : Int → List RecResult) :
    (∀ r ∈ get_genre_based_recommendations user_movies max_results discM discT discTop,
        ∀ m ∈ user_movies, m.tmdb_id ≠ some r.id) ∧
    ((get_genre_based_recommendations user_movies max_results discM discT
        discTop).map RecResult.id).Nodup ∧
    (∀ r ∈ (get_recommendations user_movies max_results discM discT discTop).1,
        ∀ m ∈ user_movies, m.tmdb_id ≠ some r.id) ∧
    ((get_recommendations user_movies max_results discM discT
        discTop).1.map RecResult.id).Nodup := by
  have hbase := get_genre_based_recommendations_recsOk user_movies max_results
    discM discT discTop
  have hfinal : recsOk user_movies
      (get_recommendations user_movies max_results discM discT discTop).1 := by
    unfold get_recommendations
    by_cases he : user_movies.isEmpty = true
    · rw [if_pos he]
      exact ⟨by simp, by simp⟩
    · rw [if_neg he]
      exact recsOk_of_sublist user_movies _ _ (pySliceTo_sublist _ _) hbase
  exact ⟨hbase.1, hbase.2, hfinal.1, hfinal.2⟩

/-- C6: when the HTTP discovery calls raise for one genre id (and the
cache has no entry for it), `discover_by_genre` catches the exception and
yields the empty list, so the engine and the route behave exactly as if
that genre's pass had returned zero results: every other genre's pass
still contributes, and the request produces its normal response instead of
failing. -/
theorem genre_pass_failure_degrades (user_movies : MovieDB) (max_results : Int)
    (genre_id : Int) (cacheM cacheT : Int → Option (List RecResult))
    (configured : Bool) (httpM httpT : Int → Except Unit (List RecResult))
    (discTop : Int → List RecResult)
    (hne : user_movies ≠ [])
    (hcM : cacheM genre_id = none) (hcT : cacheT genre_id = none)
    (hfM : httpM genre_id = .error ()) (hfT : httpT genre_id = .error ()) :
    get_recommendations user_movies max_results
        (fun g => discover_by_genre (cacheM g) configured (httpM g))
        (fun g => discover_by_genre (cacheT g) configured (httpT g)) discTop =
      get_recommendations user_movies max_results
        (fun g => discover_by_genre (cacheM g) configured
          (if g == genre_id then .ok [] else httpM g))
        (fun g => discover_by_genre (cacheT g) configured
          (if g == genre_id then .ok [] else httpT g)) discTop ∧
    get_recommendations_route user_movies max_results
        (fun g => discover_by_genre (cacheM g) configured (httpM g))
        (fun g => discover_by_genre (cacheT g) configured (httpT g)) discTop =
      get_recommendations_route user_movies max_results
        (fun g => discover_by_genre (cacheM g) configured
          (if g == genre_id then .ok [] else httpM g))
        (fun g => discover_by_genre (cacheT g) configured
          (if g == genre_id then .ok [] else httpT g)) discTop := by
  have hsan : ∀ (cache : Int → Option (List RecResult))
      (http : Int → Except Unit (List RecResult)),
      cache genre_id = none → http genre_id = .error () →
      (fun g => discover_by_genre (cache g) configured (http g)) =
        (fun g => discover_by_genre (cache g) configured
          (if g == genre_id then .ok [] else http g)) := by
    intro cache http hc hf
    funext g
    by_cases hg : g = genre_id
    · subst hg
      rw [hc, hf, if_pos (beq_self_eq_true g)]
      cases configured <;> rfl
    · rw [if_neg (by simpa using hg)]
  rw [hsan cacheM httpM hcM hfM, hsan cacheT httpT hcT hfT]
  exact ⟨rfl, rfl⟩

/-- Witness for C6: a two-genre collection whose Action discovery calls
raise behaves exactly like one whose Action discovery returns no results,
for both the engine and the route. -/
theorem genre_pass_failure_degrades_witness :
    ([actionMovie, actionDramaMovie, comedyMovie] : MovieDB) ≠ [] ∧
    get_recommendations [actionMovie, actionDramaMovie, comedyMovie] 10
        (fun g => discover_by_genre none true
          (if g == 28 then Except.error () else Except.ok [{ id := 900 }]))
        (fun g => discover_by_genre none true
          (if g == 28 then Except.error () else Except.ok []))
        (fun _ => []) =
      get_recommendations [actionMovie, actionDramaMovie, comedyMovie] 10
        (fun g => discover_by_genre none true
          (if g == 28 then Except.ok [] else
            if g == 28 then Except.error () else Except.ok [{ id := 900 }]))
        (fun g => discover_by_genre none true
          (if g == 28 then Except.ok [] else
            if g == 28 then Except.error () else Except.ok []))
        (fun _ => []) := by
  refine ⟨by decide, ?_⟩
  exact (genre_pass_failure_degrades [actionMovie, actionDramaMovie, comedyMovie] 10 28
    (fun _ => none) (fun _ => none) true
    (fun g => if g == 28 then Except.error () else Except.ok [{ id := 900 }])
    (fun g => if g == 28 then Except.error () else Except.ok [])
    (fun _ => []) (by decide) rfl rfl rfl rfl).1

end MovieMate
